import Mathlib

/-!
Verification development for the josh-sync synchronization engine.

The Rust sources (`src/config.rs`, `src/josh.rs`, `src/utils.rs`,
`src/sync.rs`) are shallowly embedded below. External effects (git
subprocesses, the filesystem, the josh proxy process) are modelled by an
explicit environment record that fixes the outcome of each external call,
and the local repository is modelled by a small `GitState` record (current
HEAD commit, content of the rust-version marker file). Each orchestration
function is translated control-flow point by control-flow point from the
source; `Drop` implementations (the `GitResetOnDrop` rollback guard) are
applied explicitly on every exit path of the scope that owns them, which is
exactly what Rust does. A run additionally records a trace of the mutating
git commands it issued, so that ordering properties (marker commit before
merge, proxy startup before the short-circuit check) can be stated.

Modelling conventions:
- `git rev-parse HEAD` reads the tracked `GitState.head` and is assumed to
  succeed; all other external calls can fail as dictated by the environment.
- a Rust `panic!` / failed `expect` / out-of-bounds slice is modelled as a
  distinguished `panicked` outcome, separate from the `anyhow::Error`
  driven failure outcomes;
- `git reset --hard <sha>` performed by the rollback guard restores the
  `GitState` captured when the guard was created (the marker file is a
  tracked file, so a hard reset to the pre-pull commit also restores it).
-/

namespace JoshSync

/-- From `config.rs`: an operation executed after a pull (`PostPullOperation`). -/
structure PostPullOperation where
  cmd : List String
  commit_message : String
deriving Repr, DecidableEq

/-- From `config.rs`: the `JoshConfig` structure (after TOML parsing). -/
structure JoshConfig where
  org : String
  repo : String
  path : Option String
  filter : Option String
  post_pull : List PostPullOperation
deriving Repr, DecidableEq

/-- From `config.rs`: `JoshConfig::full_repo_name`. -/
def JoshConfig.full_repo_name (c : JoshConfig) : String :=
  c.org ++ "/" ++ c.repo

/-- From `config.rs`: `JoshConfig::construct_josh_filter`. The `unreachable!`
arm (both `path` and `filter` present, or neither) is modelled as `none`
(a panic of the caller). -/
def JoshConfig.construct_josh_filter (c : JoshConfig) : Option String :=
  match c.path, c.filter with
  | some path, none => some (":/" ++ path)
  | none, some filter => some filter
  | _, _ => none

/-- From `config.rs`: `load_config`, after the file has been read and parsed as
TOML with all required fields present (the function receives the parsed
`JoshConfig`; the IO and TOML layers are excluded collaborators). -/
def load_config (config : JoshConfig) : Except String JoshConfig :=
  if config.path.isSome = config.filter.isSome then
    if config.path.isSome then
      Except.error "Cannot specify both `path` and `filter`"
    else
      Except.error "Must specify one of `path` and `filter`"
  else
    Except.ok config

/-- From `lib.rs`: `SyncContext`. The path field is kept as a plain string. -/
structure SyncContext where
  config : JoshConfig
  last_upstream_sha : Option String
  last_upstream_sha_path : String
deriving Repr, DecidableEq

/-- From `sync.rs`: `DEFAULT_UPSTREAM_REPO`. -/
def DEFAULT_UPSTREAM_REPO : String := "rust-lang/rust"

/-- From `josh.rs`: `JOSH_PORT`. -/
def JOSH_PORT : Nat := 42042

/-- From `josh.rs`: `RunningJoshProxy::git_url`. -/
def git_url (port : Nat) (repo : String) (commit : Option String)
    (filter : String) : String :=
  "http://localhost:" ++ toString port ++ "/" ++ repo ++ ".git" ++
    ((commit.map (fun c => "@" ++ c)).getD "") ++ filter ++ ".git"

/-- Rust `str::split_whitespace().next()`: the first maximal run of
non-whitespace characters, if any. -/
def firstToken (s : String) : Option String :=
  ((s.split (fun c => c.isWhitespace)).filter (fun t => t ≠ "")).head?

/-- Rust string slicing `&s[..n]`: `none` models the panic raised when `n`
exceeds the byte length of `s` (SHA strings are ASCII, so the char-boundary
condition is byte-count only here). -/
def rustSliceFirst (s : String) (n : Nat) : Option String :=
  if n ≤ s.utf8ByteSize then some (s.extract 0 ⟨n⟩) else none

/-- The observable state of the local subtree repository: the commit HEAD
points at, and the content of the rust-version marker file
(`SyncContext.last_upstream_sha_path`), `none` when the file is absent. -/
structure GitState where
  head : String
  lastUpstreamShaFile : Option String
deriving Repr, DecidableEq

/-- Trace of the externally visible mutating steps of a pull. -/
inductive Event where
  | proxyStart
  | writeShaFile (content : String)
  | markerCommit (noVerify : Bool) (message : String)
  | fetch (url : String)
  | mergeCmd (noVerify : Bool) (noFF : Bool) (message : String)
  | postPullCommit (message : String)
  | reset (target : String)
deriving Repr, DecidableEq

/-- From `sync.rs`: the result of `rustc_pull`, flattening
`Result<PullResult, RustcPullError>` and adding a `panicked` outcome for
Rust panics. `ok` carries `PullResult::merge_commit_message`. -/
inductive PullOutcome where
  | ok (merge_commit_message : String)
  | nothingToPull
  | pullFailed (msg : String)
  | panicked (msg : String)
deriving Repr, DecidableEq

/-- Outcome of resolving the upstream commit to pull
(`sync.rs` lines 51-68). -/
inductive Resolved where
  | sha (s : String)
  | failed (msg : String)
  | panicked (msg : String)
deriving Repr, DecidableEq

/-- From `sync.rs` lines 51-68: the upstream commit that we want to pull; an
explicitly supplied commit wins, otherwise the first whitespace token of
the `git ls-remote` output (`lsRemoteOut`, `none` when the command fails);
an all-whitespace remote response panics. -/
def resolve_upstream (lsRemoteOut : Option String) (_upstream_repo : String)
    (upstream_commit : Option String) : Resolved :=
  match upstream_commit with
  | some sha => Resolved.sha sha
  | none =>
    match lsRemoteOut with
    | none => Resolved.failed "cannot fetch upstream commit"
    | some out =>
      match firstToken out with
      | some tok => Resolved.sha tok
      | none =>
        Resolved.panicked
          ("Could not obtain Rust repo HEAD from remote: " ++ out)

/-- Environment for one configured post-pull operation: outcome of the
command itself, of the `git diff` emptiness check against the pre-command
HEAD, of `git add -u` and of `git commit` (with the new HEAD on success). -/
structure PostPullOpEnv where
  cmdOk : Bool
  diffEmpty : Bool
  addOk : Bool
  commitResult : Option String
deriving Repr, DecidableEq

/-- Environment of one `rustc_pull` call: the outcome of every external
call the function makes, in program order. `Option` fields are `none` when
the corresponding command fails (or, for `proxyStart`, when josh never
opens its port, which panics). -/
structure PullEnv where
  lsRemoteOut : Option String
  gitStatusOut : Option String
  proxyStart : Option Bool
  writeFileOk : Bool
  gitAddOk : Bool
  markerCommitResult : Option String
  fetchOk : Bool
  numRootsBefore : Option Nat
  fetchHeadSha : Option String
  mergeResult : Option String
  mergeEmptyDiff : Bool
  postPullEnv : Nat → PostPullOpEnv
  numRootsAfter : Option Nat
  resetOk : Bool

/-- From `sync.rs` lines 122-126: the marker (preparation) commit message. -/
def prep_message (upstream_repo upstream_sha : String) : String :=
  "Prepare for merging from " ++ upstream_repo ++
    "\n\nThis updates the rust-version file to " ++ upstream_sha ++ "."

/-- From `sync.rs` lines 170-187: the merge commit message. -/
def merge_message_text (upstream_repo upstream_sha upstream_head_short
    incoming_ref prev_upstream_sha : String) : String :=
  "Merge ref '" ++ upstream_head_short ++ "' from " ++ upstream_repo ++
    "\n\nPull recent changes from https://github.com/" ++ upstream_repo ++
    " via Josh.\n\nUpstream ref: " ++ upstream_sha ++
    "\nFiltered ref: " ++ incoming_ref ++
    "\nUpstream diff: https://github.com/" ++ DEFAULT_UPSTREAM_REPO ++
    "/compare/" ++ prev_upstream_sha ++ "..." ++ upstream_sha ++
    "\n\nThis merge was created using https://github.com/rust-lang/josh-sync.\n"

/-- From `sync.rs` lines 437-445, `GitResetOnDrop::drop`, applied when control
leaves the scope that owns the guard: while still armed it runs
`git reset --hard <reset_to>` (restoring the captured pre-pull state
`restore`); a failing reset panics via `expect`. Disarmed, it does
nothing. -/
def guardFinish (out : PullOutcome) (armed : Bool) (resetOk : Bool)
    (restore : GitState) (s : GitState) (tr : List Event) :
    PullOutcome × GitState × List Event :=
  if armed then
    if resetOk then (out, restore, tr ++ [Event.reset restore.head])
    else
      (PullOutcome.panicked ("cannot reset current branch to " ++ restore.head),
        s, tr)
  else (out, s, tr)

/-- Outcome of the post-pull operation loop (`sync.rs` lines 233-239). -/
inductive OpsResult where
  | ok
  | failed (msg : String)
  | panicked (msg : String)
deriving Repr, DecidableEq

/-- From `sync.rs` lines 233-239 and 356-370: run each configured post-pull
operation in order (`run_post_pull_op`): run the command (panicking on an
empty argument vector, as `Command::new(args[0])` would), and if it changed
tracked files, `git add -u` and commit with the configured message. -/
def run_post_pull_ops (envs : Nat → PostPullOpEnv) :
    Nat → List PostPullOperation → GitState → List Event →
      OpsResult × GitState × List Event
  | _, [], s, tr => (OpsResult.ok, s, tr)
  | i, op :: rest, s, tr =>
    let e := envs i
    if op.cmd = [] then
      (OpsResult.panicked "index out of bounds: the len is 0 but the index is 0",
        s, tr)
    else if e.cmdOk = false then
      (OpsResult.failed "post-pull command failed", s, tr)
    else if e.diffEmpty then
      run_post_pull_ops envs (i + 1) rest s tr
    else if e.addOk = false then
      (OpsResult.failed "git add -u failed", s, tr)
    else
      match e.commitResult with
      | none => (OpsResult.failed "git commit failed", s, tr)
      | some newHead =>
        run_post_pull_ops envs (i + 1) rest { s with head := newHead }
          (tr ++ [Event.postPullCommit op.commit_message])

/-- From `sync.rs` lines 103-253: the part of `rustc_pull` in which the
`GitResetOnDrop` guard is live. `s0` is the state at guard creation
(`orig_head` is `s0.head`); every exit path goes through `guardFinish`
with the armed flag the guard has at that exit, mirroring Rust drop
semantics (a drop also runs while a panic unwinds). -/
def pull_guarded (ctx : SyncContext) (env : PullEnv)
    (upstream_repo upstream_sha : String) (allow_noop : Bool)
    (s0 : GitState) (josh_url : String) (tr : List Event) :
    PullOutcome × GitState × List Event :=
  -- lines 111-120: write the new upstream SHA to the rust-version file
  if env.writeFileOk = false then
    guardFinish
      (PullOutcome.pullFailed
        ("cannot write upstream SHA to " ++ ctx.last_upstream_sha_path))
      true env.resetOk s0 s0 tr
  else
    let s1 : GitState := { s0 with lastUpstreamShaFile := some (upstream_sha ++ "\n") }
    let tr1 := tr ++ [Event.writeShaFile (upstream_sha ++ "\n")]
    -- line 135: git add the rust-version file
    if env.gitAddOk = false then
      guardFinish (PullOutcome.pullFailed "git add failed") true env.resetOk s0 s1 tr1
    else
      -- lines 136-147: the marker commit, with --no-verify
      match env.markerCommitResult with
      | none =>
        guardFinish (PullOutcome.pullFailed "cannot create preparation commit")
          true env.resetOk s0 s1 tr1
      | some markerHead =>
        let s2 : GitState := { s1 with head := markerHead }
        let tr2 := tr1 ++
          [Event.markerCommit true (prep_message upstream_repo upstream_sha)]
        -- lines 149-151: fetch the filtered history through josh
        let tr3 := tr2 ++ [Event.fetch josh_url]
        if env.fetchOk = false then
          guardFinish
            (PullOutcome.pullFailed "cannot fetch git state through Josh")
            true env.resetOk s0 s2 tr3
        else
          -- lines 154-162: count root commits before merging
          match env.numRootsBefore with
          | none =>
            guardFinish
              (PullOutcome.pullFailed "failed to determine the number of root commits")
              true env.resetOk s0 s2 tr3
          | some rootsBefore =>
            let sha_pre_merge := s2.head
            -- line 167: git rev-parse FETCH_HEAD
            match env.fetchHeadSha with
            | none =>
              guardFinish (PullOutcome.pullFailed "cannot rev-parse FETCH_HEAD")
                true env.resetOk s0 s2 tr3
            | some incoming_ref =>
              -- lines 170-187: merge message; line 181 slices the first 12
              -- bytes of the upstream SHA and panics when it is shorter
              match rustSliceFirst upstream_sha 12 with
              | none =>
                guardFinish
                  (PullOutcome.panicked
                    ("byte index 12 is out of bounds of `" ++ upstream_sha ++ "`"))
                  true env.resetOk s0 s2 tr3
              | some upstream_head_short =>
                let mm := merge_message_text upstream_repo upstream_sha
                  upstream_head_short incoming_ref
                  (ctx.last_upstream_sha.getD upstream_sha)
                -- lines 189-212: the merge itself (--no-verify --no-ff)
                let tr4 := tr3 ++ [Event.mergeCmd true true mm]
                match env.mergeResult with
                | none =>
                  -- merge failed (e.g. conflict): disarm, do NOT revert
                  (PullOutcome.pullFailed
                      "FAILED to merge new commits, something went wrong",
                    s2, tr4)
                | some mergedHead =>
                  let s3 : GitState := { s2 with head := mergedHead }
                  let current_sha := s3.head
                  -- lines 217-221: no new commit created
                  if current_sha = sha_pre_merge ∧ allow_noop = false then
                    guardFinish PullOutcome.nothingToPull true env.resetOk s0 s3 tr4
                  -- lines 223-229: merge created, but empty tree diff
                  else if env.mergeEmptyDiff = true ∧ allow_noop = false then
                    guardFinish PullOutcome.nothingToPull true env.resetOk s0 s3 tr4
                  else
                    -- lines 233-239: post-pull operations (before disarm)
                    match run_post_pull_ops env.postPullEnv 0
                        ctx.config.post_pull s3 tr4 with
                    | (OpsResult.failed msg, s4, tr5) =>
                      guardFinish (PullOutcome.pullFailed msg) true env.resetOk s0 s4 tr5
                    | (OpsResult.panicked msg, s4, tr5) =>
                      guardFinish (PullOutcome.panicked msg) true env.resetOk s0 s4 tr5
                    | (OpsResult.ok, s4, tr5) =>
                      -- line 241: git_reset.disarm()
                      -- lines 244-249: root-commit invariant check
                      match env.numRootsAfter with
                      | none =>
                        (PullOutcome.pullFailed
                            "failed to determine the number of root commits",
                          s4, tr5)
                      | some rootsAfter =>
                        if rootsAfter ≠ rootsBefore then
                          (PullOutcome.pullFailed
                              "Josh created a new root commit. This is probably not the history you want.",
                            s4, tr5)
                        else
                          (PullOutcome.ok mm, s4, tr5)

/-- From `sync.rs` lines 44-254: `GitSync::rustc_pull`. `s0` is the repository
state at entry. Returns the outcome, the final repository state and the
trace of mutating git steps. -/
def rustc_pull (ctx : SyncContext) (env : PullEnv) (upstream_repo : String)
    (upstream_commit : Option String) (allow_noop : Bool) (s0 : GitState) :
    PullOutcome × GitState × List Event :=
  match resolve_upstream env.lsRemoteOut upstream_repo upstream_commit with
  | Resolved.panicked msg => (PullOutcome.panicked msg, s0, [])
  | Resolved.failed msg => (PullOutcome.pullFailed msg, s0, [])
  | Resolved.sha upstream_sha =>
    -- line 70: ensure_clean_git_state (utils.rs lines 72-83)
    match env.gitStatusOut with
    | none => (PullOutcome.panicked "cannot figure out if git state is clean", s0, [])
    | some status =>
      if status ≠ "" then
        (PullOutcome.pullFailed "working directory must be clean", s0, [])
      else
        -- lines 72-81: start josh and build the filtered URL
        match env.proxyStart with
        | none =>
          (PullOutcome.panicked
            "Even after waiting for 1s, josh-proxy is still not available.", s0, [])
        | some false => (PullOutcome.pullFailed "cannot start josh-proxy", s0, [])
        | some true =>
          match ctx.config.construct_josh_filter with
          | none =>
            (PullOutcome.panicked "Config contains both path and a filter", s0,
              [Event.proxyStart])
          | some filter =>
            let josh_url := git_url JOSH_PORT upstream_repo (some upstream_sha) filter
            -- lines 94-101: short-circuit when nothing changed upstream
            if ctx.last_upstream_sha = some upstream_sha then
              (PullOutcome.nothingToPull, s0, [Event.proxyStart])
            else
              -- line 104 onwards: the guard becomes live
              pull_guarded ctx env upstream_repo upstream_sha allow_noop s0
                josh_url [Event.proxyStart]

/-- Result of `rustc_push` (`anyhow::Result<()>` plus a panic outcome). -/
inductive PushOutcome where
  | ok
  | failed (msg : String)
  | panicked (msg : String)
deriving Repr, DecidableEq

/-- Environment of one `rustc_push` call, in program order.
`branchFetchOk = true` means fetching the target branch name from the fork
succeeded, i.e. the branch already exists. -/
structure PushEnv where
  gitStatusOut : Option String
  proxyStart : Option Bool
  rustcGitVar : Option String
  rustcGitIsDir : Bool
  checkoutExists : Bool
  promptAnswer : Bool
  cloneOk : Bool
  branchFetchOk : Bool
  baseFetchOk : Bool
  basePushOk : Bool
  filteredPushOk : Bool
  backFetchOk : Bool
  headSha : String
  fetchHeadSha : Option String
deriving Repr, DecidableEq

/-- Outcome of `prepare_rustc_checkout` (`sync.rs` lines 374-414). -/
inductive CheckoutResult where
  | ok (path : String)
  | failed (msg : String)
  | panicked (msg : String)
deriving Repr, DecidableEq

/-- From `sync.rs` lines 374-414: `prepare_rustc_checkout`: use `RUSTC_GIT`
(asserting it is a directory), else reuse or offer to clone the fixed
`rustc-checkout` directory. -/
def prepare_rustc_checkout (env : PushEnv) : CheckoutResult :=
  match env.rustcGitVar with
  | some p =>
    if env.rustcGitIsDir then CheckoutResult.ok p
    else CheckoutResult.panicked "rustc checkout path must be a directory"
  | none =>
    if env.checkoutExists then CheckoutResult.ok "rustc-checkout"
    else if env.promptAnswer then
      if env.cloneOk then CheckoutResult.ok "rustc-checkout"
      else CheckoutResult.failed "cannot clone rustc"
    else CheckoutResult.failed "cannot continue without a rustc checkout"

/-- From `sync.rs` lines 329-342: the round-trip failure message of
`rustc_push`, naming the expected local HEAD and the fetched-back SHA. -/
def roundtrip_failure_message (head fetch_head : String) : String :=
  "Josh created a non-roundtrip push! Do NOT merge this into rustc!\nExpected " ++
    head ++ ", got " ++ fetch_head ++ "."

/-- From `sync.rs` lines 256-349: `GitSync::rustc_push`. The push mutates no
local repository state; the result is the outcome alone. -/
def rustc_push (ctx : SyncContext) (env : PushEnv)
    (username branch : String) : PushOutcome :=
  -- line 257: ensure_clean_git_state
  match env.gitStatusOut with
  | none => PushOutcome.panicked "cannot figure out if git state is clean"
  | some status =>
    if status ≠ "" then PushOutcome.failed "working directory must be clean"
    else
      -- lines 261-270: start josh, build the fork-filtered URL
      match env.proxyStart with
      | none =>
        PushOutcome.panicked
          "Even after waiting for 1s, josh-proxy is still not available."
      | some false => PushOutcome.failed "cannot start josh-proxy"
      | some true =>
        match ctx.config.construct_josh_filter with
        | none => PushOutcome.panicked "Config contains both path and a filter"
        | some _filter =>
          -- lines 273-274: prepare the rustc checkout
          match prepare_rustc_checkout env with
          | CheckoutResult.panicked msg => PushOutcome.panicked msg
          | CheckoutResult.failed msg =>
            PushOutcome.failed ("cannot prepare rustc checkout: " ++ msg)
          | CheckoutResult.ok _ =>
            -- lines 282-292: abort when the fork branch already exists
            if env.branchFetchOk then
              PushOutcome.failed
                ("The branch '" ++ branch ++ "' seems to already exist in 'https://github.com/" ++
                  username ++ "/rust'. Please delete it and try again.")
            -- lines 295-305: fetch the last-synchronized base from upstream
            else if env.baseFetchOk = false then
              PushOutcome.failed "cannot download latest upstream SHA"
            -- lines 308-318: push that base commit to the fork branch
            else if env.basePushOk = false then
              PushOutcome.failed "cannot push to your fork"
            -- lines 322-326: push local HEAD through josh
            else if env.filteredPushOk = false then
              PushOutcome.failed "cannot push through josh"
            -- lines 330-334: fetch the pushed branch back through josh
            else if env.backFetchOk = false then
              PushOutcome.failed "cannot fetch back through josh"
            else
              -- lines 335-342: round-trip comparison
              match env.fetchHeadSha with
              | none => PushOutcome.failed "cannot rev-parse FETCH_HEAD"
              | some fetch_head =>
                if env.headSha ≠ fetch_head then
                  PushOutcome.failed
                    (roundtrip_failure_message env.headSha fetch_head)
                else PushOutcome.ok

/-- Does the event create the marker commit? -/
def isMarkerEvent : Event → Bool
  | Event.markerCommit _ _ => true
  | _ => false

/-- Does the event write the rust-version file? -/
def isWriteEvent : Event → Bool
  | Event.writeShaFile _ => true
  | _ => false

/-- Is the event a rollback (`git reset --hard`)? -/
def isResetEvent : Event → Bool
  | Event.reset _ => true
  | _ => false

/-- A concrete configuration used to evaluate the model on closed inputs. -/
def testConfig : JoshConfig :=
  ⟨"rust-lang", "testrepo", some "src/tools/testrepo", none, []⟩

/-- A concrete 40-character upstream SHA. -/
def testSha : String := "1111222233334444555566667777888899990000"

/-- A concrete context whose stored synchronization point differs from
`testSha`. -/
def testCtx : SyncContext :=
  ⟨testConfig, some "0000000000000000000000000000000000000000", "rust-version"⟩

/-- A concrete context whose stored synchronization point equals `testSha`. -/
def testCtxSame : SyncContext := ⟨testConfig, some testSha, "rust-version"⟩

/-- A concrete initial repository state. -/
def testS0 : GitState :=
  ⟨"aaaa000000000000000000000000000000000000",
    some "0000000000000000000000000000000000000000\n"⟩

/-- A post-pull operation environment in which the command succeeds and
changes nothing. -/
def testPostOpEnv : PostPullOpEnv := ⟨true, true, true, none⟩

/-- A pull environment in which every external call succeeds and the merge
is non-trivial. -/
def testEnvOk : PullEnv where
  lsRemoteOut := some (testSha ++ "\tHEAD")
  gitStatusOut := some ""
  proxyStart := some true
  writeFileOk := true
  gitAddOk := true
  markerCommitResult := some "bbbb000000000000000000000000000000000000"
  fetchOk := true
  numRootsBefore := some 1
  fetchHeadSha := some "cccc000000000000000000000000000000000000"
  mergeResult := some "dddd000000000000000000000000000000000000"
  mergeEmptyDiff := false
  postPullEnv := fun _ => testPostOpEnv
  numRootsAfter := some 1
  resetOk := true

/-- The pull environment in which the merge command fails (a conflict). -/
def envMergeConflict : PullEnv := { testEnvOk with mergeResult := none }

/-- The pull environment in which the merge succeeds but creates no new
commit: HEAD after the merge equals the marker-commit HEAD. -/
def envNoopMerge : PullEnv :=
  { testEnvOk with mergeResult := some "bbbb000000000000000000000000000000000000" }

/-- A push environment in which every external call succeeds and the
round-trip check compares equal SHAs. -/
def testPushEnvOk : PushEnv where
  gitStatusOut := some ""
  proxyStart := some true
  rustcGitVar := some "/src/rust"
  rustcGitIsDir := true
  checkoutExists := true
  promptAnswer := true
  cloneOk := true
  branchFetchOk := false
  baseFetchOk := true
  basePushOk := true
  filteredPushOk := true
  backFetchOk := true
  headSha := "eeee000000000000000000000000000000000000"
  fetchHeadSha := some "eeee000000000000000000000000000000000000"

/-- The push environment in which the fetched-back commit differs from the
local HEAD. -/
def envPushMismatch : PushEnv :=
  { testPushEnvOk with fetchHeadSha := some "ffff000000000000000000000000000000000000" }

/-- A configuration with both `path` and `filter` set. -/
def cfgBoth : JoshConfig := ⟨"rust-lang", "r", some "p", some "f", []⟩

/-- A configuration with neither `path` nor `filter` set. -/
def cfgNeither : JoshConfig := ⟨"rust-lang", "r", none, none, []⟩

end JoshSync

namespace JoshSync

set_option maxRecDepth 100000

/-- If the guard finishing step produced a success outcome, the body had
already produced that success (the drop handler never invents one). -/
theorem guardFinish_eq_ok {out : PullOutcome} {a r : Bool} {rs s : GitState}
    {tr : List Event} {m : String} {s2 : GitState} {tr2 : List Event}
    (h : guardFinish out a r rs s tr = (PullOutcome.ok m, s2, tr2)) :
    out = PullOutcome.ok m := by
  unfold guardFinish at h
  split at h
  · split at h
    · simp only [Prod.mk.injEq] at h
      exact h.1
    · simp at h
  · simp only [Prod.mk.injEq] at h
    exact h.1

/-- The guard finishing step only appends events (possibly a reset) to the
trace; it never adds a marker-commit or file-write event. -/
theorem guardFinish_trace (out : PullOutcome) (a r : Bool) (rs s : GitState)
    (tr : List Event) :
    ∃ out2 s2 ext, guardFinish out a r rs s tr = (out2, s2, tr ++ ext) ∧
      ext.countP (fun e => isMarkerEvent e) = 0 ∧
      ext.countP (fun e => isWriteEvent e) = 0 := by
  unfold guardFinish
  split
  · split
    · exact ⟨out, rs, [Event.reset rs.head], rfl, by simp [isMarkerEvent], by simp [isWriteEvent]⟩
    · exact ⟨PullOutcome.panicked ("cannot reset current branch to " ++ rs.head), s, [],
        by simp, by simp, by simp⟩
  · exact ⟨out, s, [], by simp, by simp, by simp⟩

/-- The post-pull loop only appends post-pull-commit events to the trace,
and never changes the marker file content. -/
theorem run_post_pull_ops_spec (envs : Nat → PostPullOpEnv)
    (ops : List PostPullOperation) :
    ∀ i s tr, ∃ r s2 ext,
      run_post_pull_ops envs i ops s tr = (r, s2, tr ++ ext) ∧
      ext.countP (fun e => isMarkerEvent e) = 0 ∧
      ext.countP (fun e => isWriteEvent e) = 0 ∧
      ext.countP (fun e => isResetEvent e) = 0 ∧
      s2.lastUpstreamShaFile = s.lastUpstreamShaFile := by
  induction ops with
  | nil =>
    intro i s tr
    exact ⟨OpsResult.ok, s, [], by simp [run_post_pull_ops], by simp, by simp, by simp, rfl⟩
  | cons op rest ih =>
    intro i s tr
    unfold run_post_pull_ops
    by_cases hcmd : op.cmd = []
    · rw [if_pos hcmd]
      exact ⟨OpsResult.panicked "index out of bounds: the len is 0 but the index is 0",
        s, [], by simp, by simp, by simp, by simp, rfl⟩
    · rw [if_neg hcmd]
      by_cases hok : (envs i).cmdOk = false
      · rw [if_pos hok]
        exact ⟨OpsResult.failed "post-pull command failed", s, [],
          by simp, by simp, by simp, by simp, rfl⟩
      · rw [if_neg hok]
        by_cases hdiff : (envs i).diffEmpty
        · rw [if_pos hdiff]
          exact ih (i + 1) s tr
        · rw [if_neg hdiff]
          by_cases hadd : (envs i).addOk = false
          · rw [if_pos hadd]
            exact ⟨OpsResult.failed "git add -u failed", s, [],
              by simp, by simp, by simp, by simp, rfl⟩
          · rw [if_neg hadd]
            cases hcr : (envs i).commitResult with
            | none =>
              exact ⟨OpsResult.failed "git commit failed", s, [],
                by simp, by simp, by simp, by simp, rfl⟩
            | some newHead =>
              obtain ⟨r, s2, ext, heq, hm, hw, hr, hfile⟩ :=
                ih (i + 1) { s with head := newHead }
                  (tr ++ [Event.postPullCommit op.commit_message])
              refine ⟨r, s2, Event.postPullCommit op.commit_message :: ext, ?_, ?_, ?_, ?_, hfile⟩
              · simpa using heq
              · simpa [isMarkerEvent] using hm
              · simpa [isWriteEvent] using hw
              · simpa [isResetEvent] using hr

/-- C1. If the fetch step fails after the marker commit was created, the
pull returns a pull failure and the armed rollback guard hard-resets to the
pre-pull HEAD: the final repository state equals the state at entry, with
the marker commit undone by the trailing reset. -/
theorem fetch_failure_rolls_back_marker
    (ctx : SyncContext) (env : PullEnv) (upstream_repo : String)
    (upstream_commit : Option String) (allow_noop : Bool) (s0 : GitState)
    (sha flt markerHead : String)
    (hres : resolve_upstream env.lsRemoteOut upstream_repo upstream_commit = Resolved.sha sha)
    (hstatus : env.gitStatusOut = some "")
    (hproxy : env.proxyStart = some true)
    (hfilter : ctx.config.construct_josh_filter = some flt)
    (hprev : ctx.last_upstream_sha ≠ some sha)
    (hwrite : env.writeFileOk = true)
    (hadd : env.gitAddOk = true)
    (hmarker : env.markerCommitResult = some markerHead)
    (hfetch : env.fetchOk = false)
    (hreset : env.resetOk = true) :
    rustc_pull ctx env upstream_repo upstream_commit allow_noop s0 =
      (PullOutcome.pullFailed "cannot fetch git state through Josh", s0,
        [Event.proxyStart, Event.writeShaFile (sha ++ "\n"),
         Event.markerCommit true (prep_message upstream_repo sha),
         Event.fetch (git_url JOSH_PORT upstream_repo (some sha) flt),
         Event.reset s0.head]) := by
  unfold rustc_pull
  rw [hres, hstatus]
  simp only [hproxy, hfilter]
  rw [if_neg (by simp), if_neg hprev]
  unfold pull_guarded
  simp [hwrite, hadd, hmarker, hfetch, guardFinish, hreset]

/-- Witness for C1 at a concrete input. -/
theorem fetch_failure_rolls_back_marker_witness :
    rustc_pull testCtx { testEnvOk with fetchOk := false } "rust-lang/rust"
        (some testSha) false testS0 =
      (PullOutcome.pullFailed "cannot fetch git state through Josh", testS0,
        [Event.proxyStart, Event.writeShaFile (testSha ++ "\n"),
         Event.markerCommit true (prep_message "rust-lang/rust" testSha),
         Event.fetch (git_url JOSH_PORT "rust-lang/rust" (some testSha) ":/src/tools/testrepo"),
         Event.reset testS0.head]) :=
  fetch_failure_rolls_back_marker testCtx { testEnvOk with fetchOk := false }
    "rust-lang/rust" (some testSha) false testS0 testSha ":/src/tools/testrepo"
    "bbbb000000000000000000000000000000000000"
    rfl rfl rfl rfl (by decide) rfl rfl rfl rfl rfl

/-- C3. If the merge command fails (e.g. a conflict), the guard is
disarmed without reverting: HEAD stays at the conflicted merge state (the
marker commit), no reset is issued, and the outcome is a pull failure,
which is distinct from the nothing-to-pull outcome. -/
theorem merge_conflict_not_reverted
    (ctx : SyncContext) (env : PullEnv) (upstream_repo : String)
    (upstream_commit : Option String) (allow_noop : Bool) (s0 : GitState)
    (sha flt markerHead incoming short : String) (rb : Nat)
    (hres : resolve_upstream env.lsRemoteOut upstream_repo upstream_commit = Resolved.sha sha)
    (hstatus : env.gitStatusOut = some "")
    (hproxy : env.proxyStart = some true)
    (hfilter : ctx.config.construct_josh_filter = some flt)
    (hprev : ctx.last_upstream_sha ≠ some sha)
    (hwrite : env.writeFileOk = true)
    (hadd : env.gitAddOk = true)
    (hmarker : env.markerCommitResult = some markerHead)
    (hfetch : env.fetchOk = true)
    (hrb : env.numRootsBefore = some rb)
    (hincoming : env.fetchHeadSha = some incoming)
    (hslice : rustSliceFirst sha 12 = some short)
    (hmerge : env.mergeResult = none) :
    rustc_pull ctx env upstream_repo upstream_commit allow_noop s0 =
      (PullOutcome.pullFailed "FAILED to merge new commits, something went wrong",
        { head := markerHead, lastUpstreamShaFile := some (sha ++ "\n") },
        [Event.proxyStart, Event.writeShaFile (sha ++ "\n"),
         Event.markerCommit true (prep_message upstream_repo sha),
         Event.fetch (git_url JOSH_PORT upstream_repo (some sha) flt),
         Event.mergeCmd true true (merge_message_text upstream_repo sha short
           incoming (ctx.last_upstream_sha.getD sha))]) ∧
    (∀ m, PullOutcome.pullFailed m ≠ PullOutcome.nothingToPull) := by
  constructor
  · unfold rustc_pull
    rw [hres, hstatus]
    simp only [hproxy, hfilter]
    rw [if_neg (by simp), if_neg hprev]
    unfold pull_guarded
    simp [hwrite, hadd, hmarker, hfetch, hrb, hincoming, hslice, hmerge]
  · intro m
    simp

/-- Witness for C3 at a concrete input. -/
theorem merge_conflict_not_reverted_witness :
    rustc_pull testCtx envMergeConflict "rust-lang/rust" (some testSha) false testS0 =
      (PullOutcome.pullFailed "FAILED to merge new commits, something went wrong",
        { head := "bbbb000000000000000000000000000000000000",
          lastUpstreamShaFile := some (testSha ++ "\n") },
        [Event.proxyStart, Event.writeShaFile (testSha ++ "\n"),
         Event.markerCommit true (prep_message "rust-lang/rust" testSha),
         Event.fetch (git_url JOSH_PORT "rust-lang/rust" (some testSha) ":/src/tools/testrepo"),
         Event.mergeCmd true true (merge_message_text "rust-lang/rust" testSha
           "111122223333" "cccc000000000000000000000000000000000000"
           "0000000000000000000000000000000000000000")]) ∧
    (∀ m, PullOutcome.pullFailed m ≠ PullOutcome.nothingToPull) :=
  merge_conflict_not_reverted testCtx envMergeConflict "rust-lang/rust"
    (some testSha) false testS0 testSha ":/src/tools/testrepo"
    "bbbb000000000000000000000000000000000000"
    "cccc000000000000000000000000000000000000" "111122223333" 1
    rfl rfl rfl rfl (by decide) rfl rfl rfl rfl rfl rfl (by decide) rfl

/-- Helper: a pull in which every step succeeds, the no-op checks pass and
the root count is unchanged returns success; the final state still has the
new SHA in the marker file, and no reset was ever issued. -/
theorem rustc_pull_success
    (ctx : SyncContext) (env : PullEnv) (upstream_repo : String)
    (upstream_commit : Option String) (allow_noop : Bool) (s0 : GitState)
    (sha flt markerHead incoming short mergedHead : String) (rb : Nat)
    (hres : resolve_upstream env.lsRemoteOut upstream_repo upstream_commit = Resolved.sha sha)
    (hstatus : env.gitStatusOut = some "")
    (hproxy : env.proxyStart = some true)
    (hfilter : ctx.config.construct_josh_filter = some flt)
    (hprev : ctx.last_upstream_sha ≠ some sha)
    (hwrite : env.writeFileOk = true)
    (hadd : env.gitAddOk = true)
    (hmarker : env.markerCommitResult = some markerHead)
    (hfetch : env.fetchOk = true)
    (hrb : env.numRootsBefore = some rb)
    (hincoming : env.fetchHeadSha = some incoming)
    (hslice : rustSliceFirst sha 12 = some short)
    (hmerge : env.mergeResult = some mergedHead)
    (hno1 : ¬(mergedHead = markerHead ∧ allow_noop = false))
    (hno2 : ¬(env.mergeEmptyDiff = true ∧ allow_noop = false))
    (hops : ∀ s tr, (run_post_pull_ops env.postPullEnv 0 ctx.config.post_pull s tr).1 = OpsResult.ok)
    (hra : env.numRootsAfter = some rb) :
    ∃ s4 tr5,
      rustc_pull ctx env upstream_repo upstream_commit allow_noop s0 =
        (PullOutcome.ok (merge_message_text upstream_repo sha short incoming
          (ctx.last_upstream_sha.getD sha)), s4, tr5) ∧
      s4.lastUpstreamShaFile = some (sha ++ "\n") ∧
      tr5.countP (fun e => isResetEvent e) = 0 := by
  obtain ⟨r, s4, ext, heq, hcm, hcw, hcr, hfile⟩ :=
    run_post_pull_ops_spec env.postPullEnv ctx.config.post_pull 0
      { head := mergedHead, lastUpstreamShaFile := some (sha ++ "\n") }
      [Event.proxyStart, Event.writeShaFile (sha ++ "\n"),
       Event.markerCommit true (prep_message upstream_repo sha),
       Event.fetch (git_url JOSH_PORT upstream_repo (some sha) flt),
       Event.mergeCmd true true (merge_message_text upstream_repo sha short
         incoming (ctx.last_upstream_sha.getD sha))]
  have hok := hops { head := mergedHead, lastUpstreamShaFile := some (sha ++ "\n") }
    [Event.proxyStart, Event.writeShaFile (sha ++ "\n"),
     Event.markerCommit true (prep_message upstream_repo sha),
     Event.fetch (git_url JOSH_PORT upstream_repo (some sha) flt),
     Event.mergeCmd true true (merge_message_text upstream_repo sha short
       incoming (ctx.last_upstream_sha.getD sha))]
  rw [heq] at hok
  cases r with
  | failed msg => simp at hok
  | panicked msg => simp at hok
  | ok =>
    refine ⟨s4,
      [Event.proxyStart, Event.writeShaFile (sha ++ "\n"),
       Event.markerCommit true (prep_message upstream_repo sha),
       Event.fetch (git_url JOSH_PORT upstream_repo (some sha) flt),
       Event.mergeCmd true true (merge_message_text upstream_repo sha short
         incoming (ctx.last_upstream_sha.getD sha))] ++ ext,
      ?_, by simpa using hfile, ?_⟩
    · unfold rustc_pull
      rw [hres, hstatus]
      simp only [hproxy, hfilter]
      rw [if_neg (by simp), if_neg hprev]
      unfold pull_guarded
      simp only [hwrite, hadd, hmarker, hfetch, hrb, hincoming, hslice, hmerge,
        Bool.true_eq_false, if_false, ite_false, if_neg hno1, if_neg hno2]
      simp only [List.nil_append, List.cons_append, List.append_nil] at heq ⊢
      rw [heq]
      simp [hra]
    · simp only [List.countP_append, hcr]
      simp [isResetEvent]

/-- C6. A successful merge that created no new commit (HEAD unchanged from
the pre-merge marker commit) or whose total tree diff against the pre-merge
state is empty makes the pull return nothing-to-pull, and the still-armed
guard reverts the created commits back to the entry state — unless the
caller passed the allow-noop flag, in which case the pull proceeds to
success. -/
theorem noop_merge_detection
    (ctx : SyncContext) (env : PullEnv) (upstream_repo : String)
    (upstream_commit : Option String) (allow_noop : Bool) (s0 : GitState)
    (sha flt markerHead incoming short mergedHead : String) (rb : Nat)
    (hres : resolve_upstream env.lsRemoteOut upstream_repo upstream_commit = Resolved.sha sha)
    (hstatus : env.gitStatusOut = some "")
    (hproxy : env.proxyStart = some true)
    (hfilter : ctx.config.construct_josh_filter = some flt)
    (hprev : ctx.last_upstream_sha ≠ some sha)
    (hwrite : env.writeFileOk = true)
    (hadd : env.gitAddOk = true)
    (hmarker : env.markerCommitResult = some markerHead)
    (hfetch : env.fetchOk = true)
    (hrb : env.numRootsBefore = some rb)
    (hincoming : env.fetchHeadSha = some incoming)
    (hslice : rustSliceFirst sha 12 = some short)
    (hmerge : env.mergeResult = some mergedHead) :
    (allow_noop = false → (mergedHead = markerHead ∨ env.mergeEmptyDiff = true) →
      env.resetOk = true →
      rustc_pull ctx env upstream_repo upstream_commit allow_noop s0 =
        (PullOutcome.nothingToPull, s0,
          [Event.proxyStart, Event.writeShaFile (sha ++ "\n"),
           Event.markerCommit true (prep_message upstream_repo sha),
           Event.fetch (git_url JOSH_PORT upstream_repo (some sha) flt),
           Event.mergeCmd true true (merge_message_text upstream_repo sha short
             incoming (ctx.last_upstream_sha.getD sha)),
           Event.reset s0.head])) ∧
    (allow_noop = true →
      (∀ s tr, (run_post_pull_ops env.postPullEnv 0 ctx.config.post_pull s tr).1 = OpsResult.ok) →
      env.numRootsAfter = some rb →
      ∃ s4 tr5,
        rustc_pull ctx env upstream_repo upstream_commit allow_noop s0 =
          (PullOutcome.ok (merge_message_text upstream_repo sha short incoming
            (ctx.last_upstream_sha.getD sha)), s4, tr5)) := by
  constructor
  · intro hnoop hcond hresetOk
    unfold rustc_pull
    rw [hres, hstatus]
    simp only [hproxy, hfilter]
    rw [if_neg (by simp), if_neg hprev]
    unfold pull_guarded
    by_cases hc : mergedHead = markerHead
    · simp [hwrite, hadd, hmarker, hfetch, hrb, hincoming, hslice, hmerge, hc,
        hnoop, guardFinish, hresetOk]
    · have hdiff : env.mergeEmptyDiff = true := hcond.resolve_left hc
      simp [hwrite, hadd, hmarker, hfetch, hrb, hincoming, hslice, hmerge, hc,
        hdiff, hnoop, guardFinish, hresetOk]
  · intro hnoop hops hra
    obtain ⟨s4, tr5, hrun, -, -⟩ :=
      rustc_pull_success ctx env upstream_repo upstream_commit allow_noop s0
        sha flt markerHead incoming short mergedHead rb hres hstatus hproxy
        hfilter hprev hwrite hadd hmarker hfetch hrb hincoming hslice hmerge
        (by simp [hnoop]) (by simp [hnoop]) hops hra
    exact ⟨s4, tr5, hrun⟩

/-- Witness for C6 at concrete inputs: with the allow-noop flag unset the
no-op merge is rolled back; with it set the same run succeeds. -/
theorem noop_merge_detection_witness :
    (rustc_pull testCtx envNoopMerge "rust-lang/rust" (some testSha) false testS0 =
      (PullOutcome.nothingToPull, testS0,
        [Event.proxyStart, Event.writeShaFile (testSha ++ "\n"),
         Event.markerCommit true (prep_message "rust-lang/rust" testSha),
         Event.fetch (git_url JOSH_PORT "rust-lang/rust" (some testSha) ":/src/tools/testrepo"),
         Event.mergeCmd true true (merge_message_text "rust-lang/rust" testSha
           "111122223333" "cccc000000000000000000000000000000000000"
           "0000000000000000000000000000000000000000"),
         Event.reset testS0.head])) ∧
    (∃ s4 tr5,
      rustc_pull testCtx envNoopMerge "rust-lang/rust" (some testSha) true testS0 =
        (PullOutcome.ok (merge_message_text "rust-lang/rust" testSha
          "111122223333" "cccc000000000000000000000000000000000000"
          "0000000000000000000000000000000000000000"), s4, tr5)) :=
  ⟨(noop_merge_detection testCtx envNoopMerge "rust-lang/rust" (some testSha)
      false testS0 testSha ":/src/tools/testrepo"
      "bbbb000000000000000000000000000000000000"
      "cccc000000000000000000000000000000000000" "111122223333"
      "bbbb000000000000000000000000000000000000" 1
      rfl rfl rfl rfl (by decide) rfl rfl rfl rfl rfl rfl (by decide) rfl).1
      rfl (Or.inl rfl) rfl,
   (noop_merge_detection testCtx envNoopMerge "rust-lang/rust" (some testSha)
      true testS0 testSha ":/src/tools/testrepo"
      "bbbb000000000000000000000000000000000000"
      "cccc000000000000000000000000000000000000" "111122223333"
      "bbbb000000000000000000000000000000000000" 1
      rfl rfl rfl rfl (by decide) rfl rfl rfl rfl rfl rfl (by decide) rfl).2
      rfl (fun s tr => rfl) rfl⟩

/-- Helper: when the stored synchronization point equals the resolved
target, the pull stops right after starting the proxy, with the
nothing-to-pull outcome, an unchanged repository state, and no mutating
git step besides the proxy startup. -/
theorem short_circuit_eval
    (ctx : SyncContext) (env : PullEnv) (upstream_repo : String)
    (upstream_commit : Option String) (allow_noop : Bool) (s0 : GitState)
    (sha flt : String)
    (hres : resolve_upstream env.lsRemoteOut upstream_repo upstream_commit = Resolved.sha sha)
    (hstatus : env.gitStatusOut = some "")
    (hproxy : env.proxyStart = some true)
    (hfilter : ctx.config.construct_josh_filter = some flt)
    (hprev : ctx.last_upstream_sha = some sha) :
    rustc_pull ctx env upstream_repo upstream_commit allow_noop s0 =
      (PullOutcome.nothingToPull, s0, [Event.proxyStart]) := by
  unfold rustc_pull
  rw [hres, hstatus]
  simp only [hproxy, hfilter]
  rw [if_neg (by simp), if_pos hprev]

/-- C5. When the stored synchronization point equals the resolved upstream
target, the pull stops with the distinguished nothing-to-pull outcome and
creates no commits (state unchanged, no commit-creating event). A
successful pull stores the new target in the marker file, so an immediate
second pull resolving to the same target yields nothing-to-pull. -/
theorem pull_idempotent
    (ctx : SyncContext) (env : PullEnv) (upstream_repo : String)
    (upstream_commit : Option String) (allow_noop : Bool) (s0 : GitState)
    (sha flt : String)
    (hres : resolve_upstream env.lsRemoteOut upstream_repo upstream_commit = Resolved.sha sha)
    (hstatus : env.gitStatusOut = some "")
    (hproxy : env.proxyStart = some true)
    (hfilter : ctx.config.construct_josh_filter = some flt) :
    (ctx.last_upstream_sha = some sha →
      rustc_pull ctx env upstream_repo upstream_commit allow_noop s0 =
        (PullOutcome.nothingToPull, s0, [Event.proxyStart])) ∧
    (∀ (markerHead incoming short mergedHead : String) (rb : Nat),
      ctx.last_upstream_sha ≠ some sha →
      env.writeFileOk = true → env.gitAddOk = true →
      env.markerCommitResult = some markerHead → env.fetchOk = true →
      env.numRootsBefore = some rb → env.fetchHeadSha = some incoming →
      rustSliceFirst sha 12 = some short → env.mergeResult = some mergedHead →
      ¬(mergedHead = markerHead ∧ allow_noop = false) →
      ¬(env.mergeEmptyDiff = true ∧ allow_noop = false) →
      (∀ s tr, (run_post_pull_ops env.postPullEnv 0 ctx.config.post_pull s tr).1 = OpsResult.ok) →
      env.numRootsAfter = some rb →
      ∃ s4 tr5,
        rustc_pull ctx env upstream_repo upstream_commit allow_noop s0 =
          (PullOutcome.ok (merge_message_text upstream_repo sha short incoming
            (ctx.last_upstream_sha.getD sha)), s4, tr5) ∧
        s4.lastUpstreamShaFile = some (sha ++ "\n") ∧
        (∀ (ctx2 : SyncContext) (env2 : PullEnv) (commit2 : Option String)
            (noop2 : Bool) (flt2 : String),
          ctx2.last_upstream_sha = s4.lastUpstreamShaFile.map (fun c => c.trim) →
          (sha ++ "\n").trim = sha →
          resolve_upstream env2.lsRemoteOut upstream_repo commit2 = Resolved.sha sha →
          env2.gitStatusOut = some "" → env2.proxyStart = some true →
          ctx2.config.construct_josh_filter = some flt2 →
          rustc_pull ctx2 env2 upstream_repo commit2 noop2 s4 =
            (PullOutcome.nothingToPull, s4, [Event.proxyStart]))) := by
  constructor
  · intro hprev
    exact short_circuit_eval ctx env upstream_repo upstream_commit allow_noop
      s0 sha flt hres hstatus hproxy hfilter hprev
  · intro markerHead incoming short mergedHead rb hprev hwrite hadd hmarker
      hfetch hrb hincoming hslice hmerge hno1 hno2 hops hra
    obtain ⟨s4, tr5, hrun, hfile, -⟩ :=
      rustc_pull_success ctx env upstream_repo upstream_commit allow_noop s0
        sha flt markerHead incoming short mergedHead rb hres hstatus hproxy
        hfilter hprev hwrite hadd hmarker hfetch hrb hincoming hslice hmerge
        hno1 hno2 hops hra
    refine ⟨s4, tr5, hrun, hfile, ?_⟩
    intro ctx2 env2 commit2 noop2 flt2 hprev2 htrim hres2 hstatus2 hproxy2 hfilter2
    rw [hfile] at hprev2
    simp only [Option.map_some'] at hprev2
    rw [htrim] at hprev2
    exact short_circuit_eval ctx2 env2 upstream_repo commit2 noop2 s4 sha flt2
      hres2 hstatus2 hproxy2 hfilter2 hprev2

/-- Witness for C5 at concrete inputs: a pull whose stored point equals
the target short-circuits, and a successful pull records the new target in
the marker file. -/
theorem pull_idempotent_witness :
    (rustc_pull testCtxSame testEnvOk "rust-lang/rust" (some testSha) false testS0 =
      (PullOutcome.nothingToPull, testS0, [Event.proxyStart])) ∧
    (∃ s4 tr5,
      rustc_pull testCtx testEnvOk "rust-lang/rust" (some testSha) false testS0 =
        (PullOutcome.ok (merge_message_text "rust-lang/rust" testSha
          "111122223333" "cccc000000000000000000000000000000000000"
          "0000000000000000000000000000000000000000"), s4, tr5) ∧
      s4.lastUpstreamShaFile = some (testSha ++ "\n")) := by
  constructor
  · exact (pull_idempotent testCtxSame testEnvOk "rust-lang/rust" (some testSha)
      false testS0 testSha ":/src/tools/testrepo" rfl rfl rfl rfl).1 rfl
  · obtain ⟨s4, tr5, h1, h2, -⟩ :=
      (pull_idempotent testCtx testEnvOk "rust-lang/rust" (some testSha)
        false testS0 testSha ":/src/tools/testrepo" rfl rfl rfl rfl).2
        "bbbb000000000000000000000000000000000000"
        "cccc000000000000000000000000000000000000" "111122223333"
        "dddd000000000000000000000000000000000000" 1
        (by decide) rfl rfl rfl rfl rfl rfl rfl rfl (by decide) (by decide)
        (fun s tr => rfl) rfl
    exact ⟨s4, tr5, h1, h2⟩

/-- C8 counterexample: a pull that stops with nothing-to-pull because the
stored synchronization point equals the resolved target has nonetheless
started the proxy (the proxy-start event is in its trace), contradicting
the claim that such a pull never starts the proxy. -/
theorem proxy_short_circuit_counterexample :
    (rustc_pull testCtxSame testEnvOk "rust-lang/rust" (some testSha) false testS0).1 =
      PullOutcome.nothingToPull ∧
    Event.proxyStart ∈
      (rustc_pull testCtxSame testEnvOk "rust-lang/rust" (some testSha) false testS0).2.2 := by
  constructor
  · decide
  · decide

/-- C8 (amended). In the code the proxy is started during pull
initialization, before the short-circuit check: a pull that stops with
nothing-to-pull because the stored synchronization point equals the
resolved target has already started the proxy process. -/
theorem proxy_started_before_short_circuit
    (ctx : SyncContext) (env : PullEnv) (upstream_repo : String)
    (upstream_commit : Option String) (allow_noop : Bool) (s0 : GitState)
    (sha flt : String)
    (hres : resolve_upstream env.lsRemoteOut upstream_repo upstream_commit = Resolved.sha sha)
    (hstatus : env.gitStatusOut = some "")
    (hproxy : env.proxyStart = some true)
    (hfilter : ctx.config.construct_josh_filter = some flt)
    (hprev : ctx.last_upstream_sha = some sha) :
    rustc_pull ctx env upstream_repo upstream_commit allow_noop s0 =
      (PullOutcome.nothingToPull, s0, [Event.proxyStart]) ∧
    Event.proxyStart ∈ (rustc_pull ctx env upstream_repo upstream_commit allow_noop s0).2.2 := by
  have h := short_circuit_eval ctx env upstream_repo upstream_commit
    allow_noop s0 sha flt hres hstatus hproxy hfilter hprev
  refine ⟨h, ?_⟩
  rw [h]
  simp

/-- Witness for the amended C8 at a concrete input. -/
theorem proxy_started_before_short_circuit_witness :
    rustc_pull testCtxSame testEnvOk "rust-lang/rust" (some testSha) false testS0 =
      (PullOutcome.nothingToPull, testS0, [Event.proxyStart]) ∧
    Event.proxyStart ∈
      (rustc_pull testCtxSame testEnvOk "rust-lang/rust" (some testSha) false testS0).2.2 :=
  proxy_started_before_short_circuit testCtxSame testEnvOk "rust-lang/rust"
    (some testSha) false testS0 testSha ":/src/tools/testrepo"
    rfl rfl rfl rfl rfl

/-- C7. Every pull execution that reaches the merge step has written the
new target SHA to the sync-state file and committed it as a single
separate commit with hooks bypassed (`--no-verify`), strictly before the
merge command: the trace is the proxy start, the file write, exactly one
marker commit, the fetch, the merge command, and a suffix containing no
further marker commit or file write. When the merge fails (a conflict),
the outcome is a pull failure and HEAD stays at the marker commit, so a
conflicted merge still has the marker commit in place. -/
theorem marker_commit_once_before_merge
    (ctx : SyncContext) (env : PullEnv) (upstream_repo : String)
    (upstream_commit : Option String) (allow_noop : Bool) (s0 : GitState)
    (sha flt markerHead incoming short : String) (rb : Nat)
    (hres : resolve_upstream env.lsRemoteOut upstream_repo upstream_commit = Resolved.sha sha)
    (hstatus : env.gitStatusOut = some "")
    (hproxy : env.proxyStart = some true)
    (hfilter : ctx.config.construct_josh_filter = some flt)
    (hprev : ctx.last_upstream_sha ≠ some sha)
    (hwrite : env.writeFileOk = true)
    (hadd : env.gitAddOk = true)
    (hmarker : env.markerCommitResult = some markerHead)
    (hfetch : env.fetchOk = true)
    (hrb : env.numRootsBefore = some rb)
    (hincoming : env.fetchHeadSha = some incoming)
    (hslice : rustSliceFirst sha 12 = some short) :
    ∃ out s2 post,
      rustc_pull ctx env upstream_repo upstream_commit allow_noop s0 =
        (out, s2,
          Event.proxyStart ::
          Event.writeShaFile (sha ++ "\n") ::
          Event.markerCommit true (prep_message upstream_repo sha) ::
          Event.fetch (git_url JOSH_PORT upstream_repo (some sha) flt) ::
          Event.mergeCmd true true (merge_message_text upstream_repo sha short
            incoming (ctx.last_upstream_sha.getD sha)) ::
          post) ∧
      post.countP (fun e => isMarkerEvent e) = 0 ∧
      post.countP (fun e => isWriteEvent e) = 0 ∧
      (env.mergeResult = none →
        out = PullOutcome.pullFailed "FAILED to merge new commits, something went wrong" ∧
        s2.head = markerHead) := by
  unfold rustc_pull
  rw [hres, hstatus]
  simp only [hproxy, hfilter]
  rw [if_neg (by simp), if_neg hprev]
  unfold pull_guarded
  simp only [hwrite, hadd, hmarker, hfetch, hrb, hincoming, hslice]
  cases hmerge : env.mergeResult with
  | none =>
    refine ⟨PullOutcome.pullFailed "FAILED to merge new commits, something went wrong",
      { head := markerHead, lastUpstreamShaFile := some (sha ++ "\n") }, [],
      ?_, rfl, rfl, fun _ => ⟨rfl, rfl⟩⟩
    simp
  | some mergedHead =>
    simp only [Bool.true_eq_false, if_false, ite_false, reduceCtorEq,
      List.cons_append, List.singleton_append, List.nil_append, List.append_assoc]
    by_cases h1 : mergedHead = markerHead ∧ allow_noop = false
    · obtain ⟨out2, sg, ext, hg, hm, hw⟩ :=
        guardFinish_trace PullOutcome.nothingToPull true env.resetOk s0
          { head := mergedHead, lastUpstreamShaFile := some (sha ++ "\n") }
          [Event.proxyStart, Event.writeShaFile (sha ++ "\n"),
           Event.markerCommit true (prep_message upstream_repo sha),
           Event.fetch (git_url JOSH_PORT upstream_repo (some sha) flt),
           Event.mergeCmd true true (merge_message_text upstream_repo sha short
             incoming (ctx.last_upstream_sha.getD sha))]
      refine ⟨out2, sg, ext, ?_, hm, hw,
        fun hn => hn.elim⟩
      rw [if_pos h1]
      simpa using hg
    · rw [if_neg h1]
      by_cases h2 : env.mergeEmptyDiff = true ∧ allow_noop = false
      · obtain ⟨out2, sg, ext, hg, hm, hw⟩ :=
          guardFinish_trace PullOutcome.nothingToPull true env.resetOk s0
            { head := mergedHead, lastUpstreamShaFile := some (sha ++ "\n") }
            [Event.proxyStart, Event.writeShaFile (sha ++ "\n"),
             Event.markerCommit true (prep_message upstream_repo sha),
             Event.fetch (git_url JOSH_PORT upstream_repo (some sha) flt),
             Event.mergeCmd true true (merge_message_text upstream_repo sha short
               incoming (ctx.last_upstream_sha.getD sha))]
        refine ⟨out2, sg, ext, ?_, hm, hw,
          fun hn => hn.elim⟩
        rw [if_pos h2]
        simpa using hg
      · rw [if_neg h2]
        obtain ⟨r, s4, ext, heq, hm, hw, hrr, hfile⟩ :=
          run_post_pull_ops_spec env.postPullEnv ctx.config.post_pull 0
            { head := mergedHead, lastUpstreamShaFile := some (sha ++ "\n") }
            [Event.proxyStart, Event.writeShaFile (sha ++ "\n"),
             Event.markerCommit true (prep_message upstream_repo sha),
             Event.fetch (git_url JOSH_PORT upstream_repo (some sha) flt),
             Event.mergeCmd true true (merge_message_text upstream_repo sha short
               incoming (ctx.last_upstream_sha.getD sha))]
        rw [heq]
        cases r with
        | failed msg =>
          obtain ⟨out2, sg, ext2, hg, hm2, hw2⟩ :=
            guardFinish_trace (PullOutcome.pullFailed msg) true env.resetOk s0 s4
              ([Event.proxyStart, Event.writeShaFile (sha ++ "\n"),
                Event.markerCommit true (prep_message upstream_repo sha),
                Event.fetch (git_url JOSH_PORT upstream_repo (some sha) flt),
                Event.mergeCmd true true (merge_message_text upstream_repo sha short
                  incoming (ctx.last_upstream_sha.getD sha))] ++ ext)
          refine ⟨out2, sg, ext ++ ext2, ?_, ?_, ?_,
            fun hn => hn.elim⟩
          · simpa using hg
          · simp [List.countP_append, hm, hm2]
          · simp [List.countP_append, hw, hw2]
        | panicked msg =>
          obtain ⟨out2, sg, ext2, hg, hm2, hw2⟩ :=
            guardFinish_trace (PullOutcome.panicked msg) true env.resetOk s0 s4
              ([Event.proxyStart, Event.writeShaFile (sha ++ "\n"),
                Event.markerCommit true (prep_message upstream_repo sha),
                Event.fetch (git_url JOSH_PORT upstream_repo (some sha) flt),
                Event.mergeCmd true true (merge_message_text upstream_repo sha short
                  incoming (ctx.last_upstream_sha.getD sha))] ++ ext)
          refine ⟨out2, sg, ext ++ ext2, ?_, ?_, ?_,
            fun hn => hn.elim⟩
          · simpa using hg
          · simp [List.countP_append, hm, hm2]
          · simp [List.countP_append, hw, hw2]
        | ok =>
          cases hra2 : env.numRootsAfter with
          | none =>
            exact ⟨PullOutcome.pullFailed "failed to determine the number of root commits",
              s4, ext, rfl, hm, hw,
              fun hn => hn.elim⟩
          | some ra =>
            by_cases hr : ra ≠ rb
            · refine ⟨PullOutcome.pullFailed
                  "Josh created a new root commit. This is probably not the history you want.",
                s4, ext, ?_, hm, hw,
                fun hn => hn.elim⟩
              simp [hr]
            · refine ⟨PullOutcome.ok (merge_message_text upstream_repo sha short
                  incoming (ctx.last_upstream_sha.getD sha)),
                s4, ext, ?_, hm, hw,
                fun hn => hn.elim⟩
              simp [not_not.mp hr]

/-- Witness for C7 at a concrete input whose merge conflicts: the marker
commit is in the trace exactly once, before the merge command, and HEAD
stays at the marker commit. -/
theorem marker_commit_once_before_merge_witness :
    ∃ out s2 post,
      rustc_pull testCtx envMergeConflict "rust-lang/rust" (some testSha) false testS0 =
        (out, s2,
          Event.proxyStart ::
          Event.writeShaFile (testSha ++ "\n") ::
          Event.markerCommit true (prep_message "rust-lang/rust" testSha) ::
          Event.fetch (git_url JOSH_PORT "rust-lang/rust" (some testSha) ":/src/tools/testrepo") ::
          Event.mergeCmd true true (merge_message_text "rust-lang/rust" testSha
            "111122223333" "cccc000000000000000000000000000000000000"
            "0000000000000000000000000000000000000000") ::
          post) ∧
      post.countP (fun e => isMarkerEvent e) = 0 ∧
      post.countP (fun e => isWriteEvent e) = 0 ∧
      (envMergeConflict.mergeResult = none →
        out = PullOutcome.pullFailed "FAILED to merge new commits, something went wrong" ∧
        s2.head = "bbbb000000000000000000000000000000000000") :=
  marker_commit_once_before_merge testCtx envMergeConflict "rust-lang/rust"
    (some testSha) false testS0 testSha ":/src/tools/testrepo"
    "bbbb000000000000000000000000000000000000"
    "cccc000000000000000000000000000000000000" "111122223333" 1
    rfl rfl rfl rfl (by decide) rfl rfl rfl rfl rfl rfl (by decide)

/-- A pull whose guarded phase returned success queried the root-commit
count twice and saw the same number both times. -/
theorem pull_guarded_ok_roots {ctx : SyncContext} {env : PullEnv}
    {repo sha : String} {noop : Bool} {s0 : GitState} {url : String}
    {tr : List Event} {m : String} {sF : GitState} {trF : List Event}
    (h : pull_guarded ctx env repo sha noop s0 url tr = (PullOutcome.ok m, sF, trF)) :
    ∃ n, env.numRootsBefore = some n ∧ env.numRootsAfter = some n := by
  by_cases hw : env.writeFileOk = false
  · simp [pull_guarded, hw] at h
    exact absurd (guardFinish_eq_ok h) (by simp)
  by_cases ha : env.gitAddOk = false
  · simp [pull_guarded, hw, ha] at h
    exact absurd (guardFinish_eq_ok h) (by simp)
  rcases hm : env.markerCommitResult with _ | markerHead
  · simp [pull_guarded, hw, ha, hm] at h
    exact absurd (guardFinish_eq_ok h) (by simp)
  by_cases hf : env.fetchOk = false
  · simp [pull_guarded, hw, ha, hm, hf] at h
    exact absurd (guardFinish_eq_ok h) (by simp)
  rcases hb : env.numRootsBefore with _ | rb
  · simp [pull_guarded, hw, ha, hm, hf, hb] at h
    exact absurd (guardFinish_eq_ok h) (by simp)
  rcases hi : env.fetchHeadSha with _ | incoming
  · simp [pull_guarded, hw, ha, hm, hf, hb, hi] at h
    exact absurd (guardFinish_eq_ok h) (by simp)
  rcases hs : rustSliceFirst sha 12 with _ | short
  · simp [pull_guarded, hw, ha, hm, hf, hb, hi, hs] at h
    exact absurd (guardFinish_eq_ok h) (by simp)
  rcases hmg : env.mergeResult with _ | mergedHead
  · simp [pull_guarded, hw, ha, hm, hf, hb, hi, hs, hmg] at h
  by_cases h1 : mergedHead = markerHead ∧ noop = false
  · simp [pull_guarded, hw, ha, hm, hf, hb, hi, hs, hmg, h1.1, h1.2] at h
    exact absurd (guardFinish_eq_ok h) (by simp)
  by_cases h2 : env.mergeEmptyDiff = true ∧ noop = false
  · simp [pull_guarded, hw, ha, hm, hf, hb, hi, hs, hmg, h1, h2.1, h2.2] at h
    exact absurd (guardFinish_eq_ok h) (by simp)
  simp [pull_guarded, hw, ha, hm, hf, hb, hi, hs, hmg, h1, h2] at h
  split at h
  · exact absurd (guardFinish_eq_ok h) (by simp)
  · exact absurd (guardFinish_eq_ok h) (by simp)
  · split at h
    · simp at h
    · rename_i ra hra
      split at h
      · rename_i hcond
        exact ⟨rb, rfl, by rw [hra, hcond]⟩
      · simp at h

/-- C2. A successful pull saw the same number of root commits reachable
from HEAD before and after the merge; and when the count increases across
the merge, the pull returns the fatal root-commit integrity failure while
the already-disarmed guard leaves the repository unreverted (no reset in
the trace). -/
theorem pull_root_invariant
    (ctx : SyncContext) (env : PullEnv) (upstream_repo : String)
    (upstream_commit : Option String) (allow_noop : Bool) (s0 : GitState) :
    (∀ m sF trF,
      rustc_pull ctx env upstream_repo upstream_commit allow_noop s0 =
        (PullOutcome.ok m, sF, trF) →
      ∃ n, env.numRootsBefore = some n ∧ env.numRootsAfter = some n) ∧
    (∀ (sha flt markerHead incoming short mergedHead : String) (rb ra : Nat),
      resolve_upstream env.lsRemoteOut upstream_repo upstream_commit = Resolved.sha sha →
      env.gitStatusOut = some "" →
      env.proxyStart = some true →
      ctx.config.construct_josh_filter = some flt →
      ctx.last_upstream_sha ≠ some sha →
      env.writeFileOk = true → env.gitAddOk = true →
      env.markerCommitResult = some markerHead → env.fetchOk = true →
      env.fetchHeadSha = some incoming → rustSliceFirst sha 12 = some short →
      env.mergeResult = some mergedHead →
      ¬(mergedHead = markerHead ∧ allow_noop = false) →
      ¬(env.mergeEmptyDiff = true ∧ allow_noop = false) →
      (∀ s tr, (run_post_pull_ops env.postPullEnv 0 ctx.config.post_pull s tr).1 = OpsResult.ok) →
      env.numRootsBefore = some rb → env.numRootsAfter = some ra → rb < ra →
      ∃ sF trF,
        rustc_pull ctx env upstream_repo upstream_commit allow_noop s0 =
          (PullOutcome.pullFailed
            "Josh created a new root commit. This is probably not the history you want.",
            sF, trF) ∧
        trF.countP (fun e => isResetEvent e) = 0) := by
  constructor
  · intro m sF trF h
    rcases hresv : resolve_upstream env.lsRemoteOut upstream_repo upstream_commit with sha | msg | msg
    rotate_left
    · simp [rustc_pull, hresv] at h
    · simp [rustc_pull, hresv] at h
    rcases hst : env.gitStatusOut with _ | status
    · simp [rustc_pull, hresv, hst] at h
    by_cases hse : status = ""
    rotate_left
    · simp [rustc_pull, hresv, hst, hse] at h
    rcases hpx : env.proxyStart with _ | b
    · simp [rustc_pull, hresv, hst, hse, hpx] at h
    rcases b with _ | _
    · simp [rustc_pull, hresv, hst, hse, hpx] at h
    rcases hfl : ctx.config.construct_josh_filter with _ | flt
    · simp [rustc_pull, hresv, hst, hse, hpx, hfl] at h
    by_cases hsc : ctx.last_upstream_sha = some sha
    · simp [rustc_pull, hresv, hst, hse, hpx, hfl, hsc] at h
    simp only [rustc_pull, hresv, hst, hse, hpx, hfl, if_neg hsc, ite_not,
      ite_true, ite_false, if_true, if_false] at h
    exact pull_guarded_ok_roots (by simpa using h)
  · intro sha flt markerHead incoming short mergedHead rb ra hres hstatus
      hproxy hfilter hprev hwrite hadd hmarker hfetch hincoming hslice hmerge
      hno1 hno2 hops hrb hra hlt
    obtain ⟨r, s4, ext, heq, hcm, hcw, hcr, hfile⟩ :=
      run_post_pull_ops_spec env.postPullEnv ctx.config.post_pull 0
        { head := mergedHead, lastUpstreamShaFile := some (sha ++ "\n") }
        [Event.proxyStart, Event.writeShaFile (sha ++ "\n"),
         Event.markerCommit true (prep_message upstream_repo sha),
         Event.fetch (git_url JOSH_PORT upstream_repo (some sha) flt),
         Event.mergeCmd true true (merge_message_text upstream_repo sha short
           incoming (ctx.last_upstream_sha.getD sha))]
    have hok := hops { head := mergedHead, lastUpstreamShaFile := some (sha ++ "\n") }
      [Event.proxyStart, Event.writeShaFile (sha ++ "\n"),
       Event.markerCommit true (prep_message upstream_repo sha),
       Event.fetch (git_url JOSH_PORT upstream_repo (some sha) flt),
       Event.mergeCmd true true (merge_message_text upstream_repo sha short
         incoming (ctx.last_upstream_sha.getD sha))]
    rw [heq] at hok
    cases r with
    | failed msg => simp at hok
    | panicked msg => simp at hok
    | ok =>
      refine ⟨s4,
        [Event.proxyStart, Event.writeShaFile (sha ++ "\n"),
         Event.markerCommit true (prep_message upstream_repo sha),
         Event.fetch (git_url JOSH_PORT upstream_repo (some sha) flt),
         Event.mergeCmd true true (merge_message_text upstream_repo sha short
           incoming (ctx.last_upstream_sha.getD sha))] ++ ext,
        ?_, ?_⟩
      · unfold rustc_pull
        rw [hres, hstatus]
        simp only [hproxy, hfilter]
        rw [if_neg (by simp), if_neg hprev]
        unfold pull_guarded
        simp only [hwrite, hadd, hmarker, hfetch, hrb, hincoming, hslice, hmerge,
          Bool.true_eq_false, if_false, ite_false, if_neg hno1, if_neg hno2]
        simp only [List.nil_append, List.cons_append, List.append_nil] at heq ⊢
        rw [heq]
        simp [hra, hlt.ne']
      · simp only [List.countP_append, hcr]
        simp [isResetEvent]

/-- Witness for C2 at concrete inputs: a successful run saw equal root
counts, and a run whose root count grows from 1 to 2 fails fatally with no
reset issued. -/
theorem pull_root_invariant_witness :
    (∃ n, testEnvOk.numRootsBefore = some n ∧ testEnvOk.numRootsAfter = some n) ∧
    (∃ sF trF,
      rustc_pull testCtx { testEnvOk with numRootsAfter := some 2 }
          "rust-lang/rust" (some testSha) false testS0 =
        (PullOutcome.pullFailed
          "Josh created a new root commit. This is probably not the history you want.",
          sF, trF) ∧
      trF.countP (fun e => isResetEvent e) = 0) := by
  constructor
  · exact (pull_root_invariant testCtx testEnvOk "rust-lang/rust" (some testSha)
      false testS0).1
      (merge_message_text "rust-lang/rust" testSha "111122223333"
        "cccc000000000000000000000000000000000000"
        "0000000000000000000000000000000000000000")
      { head := "dddd000000000000000000000000000000000000",
        lastUpstreamShaFile := some (testSha ++ "\n") }
      [Event.proxyStart, Event.writeShaFile (testSha ++ "\n"),
       Event.markerCommit true (prep_message "rust-lang/rust" testSha),
       Event.fetch (git_url JOSH_PORT "rust-lang/rust" (some testSha) ":/src/tools/testrepo"),
       Event.mergeCmd true true (merge_message_text "rust-lang/rust" testSha
         "111122223333" "cccc000000000000000000000000000000000000"
         "0000000000000000000000000000000000000000")]
      (by decide)
  · exact (pull_root_invariant testCtx { testEnvOk with numRootsAfter := some 2 }
      "rust-lang/rust" (some testSha) false testS0).2
      testSha ":/src/tools/testrepo" "bbbb000000000000000000000000000000000000"
      "cccc000000000000000000000000000000000000" "111122223333"
      "dddd000000000000000000000000000000000000" 1 2
      rfl rfl rfl rfl (by decide) rfl rfl rfl rfl rfl (by decide) rfl
      (by decide) (by decide) (fun s tr => rfl) rfl rfl (by decide)

/-- C4. In a push that reaches the round-trip verification, if the SHA
fetched back through the proxy equals the local HEAD the push succeeds;
if they differ the push fails with a message naming both SHAs (expected
local HEAD first, fetched-back commit second) and warning not to merge the
result upstream. -/
theorem push_roundtrip_check
    (ctx : SyncContext) (env : PushEnv) (username branch : String)
    (flt p fetch_head : String)
    (hstatus : env.gitStatusOut = some "")
    (hproxy : env.proxyStart = some true)
    (hfilter : ctx.config.construct_josh_filter = some flt)
    (hchk : prepare_rustc_checkout env = CheckoutResult.ok p)
    (hbranch : env.branchFetchOk = false)
    (hbase : env.baseFetchOk = true)
    (hbpush : env.basePushOk = true)
    (hfpush : env.filteredPushOk = true)
    (hback : env.backFetchOk = true)
    (hfh : env.fetchHeadSha = some fetch_head) :
    (fetch_head = env.headSha → rustc_push ctx env username branch = PushOutcome.ok) ∧
    (fetch_head ≠ env.headSha →
      rustc_push ctx env username branch =
        PushOutcome.failed (roundtrip_failure_message env.headSha fetch_head) ∧
      roundtrip_failure_message env.headSha fetch_head =
        "Josh created a non-roundtrip push! Do NOT merge this into rustc!\nExpected " ++
          env.headSha ++ ", got " ++ fetch_head ++ ".") := by
  constructor
  · intro he
    unfold rustc_push
    rw [hstatus]
    simp [hproxy, hfilter, hchk, hbranch, hbase, hbpush, hfpush, hback, hfh, he]
  · intro hne
    refine ⟨?_, rfl⟩
    unfold rustc_push
    rw [hstatus]
    simp [hproxy, hfilter, hchk, hbranch, hbase, hbpush, hfpush, hback, hfh,
      Ne.symm hne]

/-- Witness for C4 at concrete inputs: equal SHAs round-trip and succeed;
distinct SHAs fail with the message naming both. -/
theorem push_roundtrip_check_witness :
    (rustc_push testCtx testPushEnvOk "user" "sync-branch" = PushOutcome.ok) ∧
    (rustc_push testCtx envPushMismatch "user" "sync-branch" =
      PushOutcome.failed (roundtrip_failure_message
        "eeee000000000000000000000000000000000000"
        "ffff000000000000000000000000000000000000") ∧
      roundtrip_failure_message "eeee000000000000000000000000000000000000"
          "ffff000000000000000000000000000000000000" =
        "Josh created a non-roundtrip push! Do NOT merge this into rustc!\nExpected " ++
          "eeee000000000000000000000000000000000000" ++ ", got " ++
          "ffff000000000000000000000000000000000000" ++ ".") :=
  ⟨(push_roundtrip_check testCtx testPushEnvOk "user" "sync-branch"
      ":/src/tools/testrepo" "/src/rust" "eeee000000000000000000000000000000000000"
      rfl rfl rfl rfl rfl rfl rfl rfl rfl rfl).1 rfl,
   (push_roundtrip_check testCtx envPushMismatch "user" "sync-branch"
      ":/src/tools/testrepo" "/src/rust" "ffff000000000000000000000000000000000000"
      rfl rfl rfl rfl rfl rfl rfl rfl rfl rfl).2 (by decide)⟩

/-- C9. Validating a parsed configuration fails exactly when `path` and
`filter` are both present or both absent; a successfully loaded
configuration is returned unchanged and has exactly one of the two. -/
theorem load_config_exclusivity (c : JoshConfig) :
    ((∃ e, load_config c = Except.error e) ↔ c.path.isSome = c.filter.isSome) ∧
    (∀ c2, load_config c = Except.ok c2 → c2 = c ∧ c2.path.isSome ≠ c2.filter.isSome) := by
  constructor
  · constructor
    · rintro ⟨e, he⟩
      by_contra hne
      simp [load_config, hne] at he
    · intro h
      unfold load_config
      rw [if_pos h]
      by_cases hp : c.path.isSome
      · rw [if_pos hp]
        exact ⟨_, rfl⟩
      · rw [if_neg hp]
        exact ⟨_, rfl⟩
  · intro c2 hc2
    unfold load_config at hc2
    by_cases h : c.path.isSome = c.filter.isSome
    · rw [if_pos h] at hc2
      by_cases hp : c.path.isSome
      · rw [if_pos hp] at hc2
        exact absurd hc2 (by simp)
      · rw [if_neg hp] at hc2
        exact absurd hc2 (by simp)
    · rw [if_neg h] at hc2
      have hc : c = c2 := by
        injection hc2
      subst hc
      exact ⟨rfl, h⟩

/-- Witness for C9 at concrete configurations: both set fails, neither set
fails, and the valid test configuration has exactly one of the two. -/
theorem load_config_exclusivity_witness :
    (∃ e, load_config cfgBoth = Except.error e) ∧
    (∃ e, load_config cfgNeither = Except.error e) ∧
    testConfig.path.isSome ≠ testConfig.filter.isSome :=
  ⟨(load_config_exclusivity cfgBoth).1.mpr rfl,
   (load_config_exclusivity cfgNeither).1.mpr rfl,
   ((load_config_exclusivity testConfig).2 testConfig rfl).2⟩

/-- C10. A pull that reaches the merge-message construction with a
resolved upstream SHA shorter than 12 bytes panics while slicing the SHA
(the panic unwinds through the armed guard, which resets to the pre-pull
state) instead of returning a classified pull failure. -/
theorem short_sha_slice_panics
    (ctx : SyncContext) (env : PullEnv) (upstream_repo : String)
    (upstream_commit : Option String) (allow_noop : Bool) (s0 : GitState)
    (sha flt markerHead incoming : String) (rb : Nat)
    (hres : resolve_upstream env.lsRemoteOut upstream_repo upstream_commit = Resolved.sha sha)
    (hstatus : env.gitStatusOut = some "")
    (hproxy : env.proxyStart = some true)
    (hfilter : ctx.config.construct_josh_filter = some flt)
    (hprev : ctx.last_upstream_sha ≠ some sha)
    (hwrite : env.writeFileOk = true)
    (hadd : env.gitAddOk = true)
    (hmarker : env.markerCommitResult = some markerHead)
    (hfetch : env.fetchOk = true)
    (hrb : env.numRootsBefore = some rb)
    (hincoming : env.fetchHeadSha = some incoming)
    (hshort : sha.utf8ByteSize < 12)
    (hreset : env.resetOk = true) :
    rustc_pull ctx env upstream_repo upstream_commit allow_noop s0 =
      (PullOutcome.panicked ("byte index 12 is out of bounds of `" ++ sha ++ "`"), s0,
        [Event.proxyStart, Event.writeShaFile (sha ++ "\n"),
         Event.markerCommit true (prep_message upstream_repo sha),
         Event.fetch (git_url JOSH_PORT upstream_repo (some sha) flt),
         Event.reset s0.head]) := by
  have hs : rustSliceFirst sha 12 = none := by
    unfold rustSliceFirst
    rw [if_neg (by omega)]
  unfold rustc_pull
  rw [hres, hstatus]
  simp only [hproxy, hfilter]
  rw [if_neg (by simp), if_neg hprev]
  unfold pull_guarded
  simp [hwrite, hadd, hmarker, hfetch, hrb, hincoming, hs, guardFinish, hreset]

/-- Witness for C10: an explicitly supplied 3-byte upstream commit makes
the pull panic at the merge-message slice. -/
theorem short_sha_slice_panics_witness :
    rustc_pull testCtx testEnvOk "rust-lang/rust" (some "abc") false testS0 =
      (PullOutcome.panicked ("byte index 12 is out of bounds of `" ++ "abc" ++ "`"),
        testS0,
        [Event.proxyStart, Event.writeShaFile ("abc" ++ "\n"),
         Event.markerCommit true (prep_message "rust-lang/rust" "abc"),
         Event.fetch (git_url JOSH_PORT "rust-lang/rust" (some "abc") ":/src/tools/testrepo"),
         Event.reset testS0.head]) :=
  short_sha_slice_panics testCtx testEnvOk "rust-lang/rust" (some "abc") false
    testS0 "abc" ":/src/tools/testrepo" "bbbb000000000000000000000000000000000000"
    "cccc000000000000000000000000000000000000" 1
    rfl rfl rfl rfl (by decide) rfl rfl rfl rfl rfl rfl (by decide) rfl

end JoshSync
